import Mathlib

/-!
Verification of the employee-survey recommendation system.

The repository's frontend components (`Recommendations.js`, `Dashboard.js`,
`StatCard.js`) are embedded directly from their JavaScript source.  The
backend recommendation pipeline (`recommendation_agent.py`, `risk_engine.py`)
is described by `backend/ARCHITECTURE.md` and the specification but its
Python source is not in the tree; those components are modelled from the
spec, as marked in each doc comment.

JavaScript numbers are modelled as rationals (`ℚ`); JSON payloads as the
inductive `JVal` below.
-/

/-- Round half-up to the nearest integer: `⌊x + 1/2⌋`. -/
def roundHalfUp (x : ℚ) : ℤ := ⌊x + 1/2⌋

/-- Round to one decimal place, as Python's `round(x, 1)` (half-up) and
JavaScript's `toFixed(1)` (value, not string) do on the magnitudes involved. -/
def round1 (x : ℚ) : ℚ := (roundHalfUp (x * 10) : ℚ) / 10

/-- JSON values as delivered by `response.json()` in the frontend: strings,
numbers (with `NaN` from failed `Number(...)` conversions), booleans, `null`,
arrays, and objects as ordered key-value lists. -/
inductive JVal where
  | vstr (s : String)
  | vnum (q : ℚ)
  | vnan
  | vbool (b : Bool)
  | vnull
  | varr (elems : List JVal)
  | vobj (fields : List (String × JVal))

/-- `fields.lookup? k` is the value of key `k` (`item[k]`), `none` when the
key is absent (JavaScript `undefined`; JSON objects cannot store
`undefined`, so `item[k] !== undefined` is exactly key presence). -/
def lookup? (fields : List (String × JVal)) (k : String) : Option JVal :=
  (fields.find? (fun p => p.1 == k)).map (fun p => p.2)

/-- Digits-only string to its numeric value. -/
def digitsVal? (s : String) : Option ℕ :=
  if s.length ≠ 0 ∧ s.toList.all Char.isDigit then
    some (s.toList.foldl (fun n c => 10 * n + (c.toNat - 48)) 0)
  else none

/-- JavaScript `Number(s)` on a string: trimmed empty string is `0`,
optionally signed decimal numerals parse, anything else is `NaN` (`none`).
Exponent, hex and infinity forms are not modelled; the DynamoDB `N`
attribute this conversion is applied to always carries a plain decimal
numeral. -/
def parseJsNumber? (s : String) : Option ℚ :=
  let t := s.trim
  if t = "" then some 0
  else
    let neg := t.startsWith "-"
    let u := if neg ∨ t.startsWith "+" then t.drop 1 else t
    let signed : ℚ → ℚ := fun q => if neg then -q else q
    match u.splitOn "." with
    | [a] => (digitsVal? a).map (fun n => signed n)
    | [a, b] =>
      if a = "" ∧ b = "" then none
      else
        match (if a = "" then some 0 else digitsVal? a),
              (if b = "" then some (0 : ℚ)
               else (digitsVal? b).map (fun n => (n : ℚ) / (10 : ℚ) ^ b.length)) with
        | some i, some f => some (signed ((i : ℚ) + f))
        | _, _ => none
    | _ => none

/-- JavaScript `Number(v)` on a JSON value.  Strings parse per
`parseJsNumber?`; booleans and `null` coerce to `1`/`0`; arrays and objects
are collapsed to `NaN` (their `toString`-based coercion is not modelled;
the code only ever applies this to DynamoDB `N` attribute values, which are
numeric strings). -/
def jsToNumber : JVal → JVal
  | .vstr s =>
    match parseJsNumber? s with
    | some q => .vnum q
    | none => .vnan
  | .vnum q => .vnum q
  | .vnan => .vnan
  | .vbool b => .vnum (if b then 1 else 0)
  | .vnull => .vnum 0
  | .varr _ => .vnan
  | .vobj _ => .vnan

/-- `unmarshall`'s per-field body (`Recommendations.js` lines 30-39,
`Dashboard.js` lines 36-45): a non-null object value (`val && typeof val
=== 'object'`) with key `S` maps to `val.S`, else with key `N` to
`Number(val.N)`, else it falls through unchanged; non-object values are
copied unchanged. -/
def unmarshallVal (val : JVal) : JVal :=
  match val with
  | .vobj fields =>
    match lookup? fields "S" with
    | some s => s
    | none =>
      match lookup? fields "N" with
      | some n => jsToNumber n
      | none => .vobj fields
  | v => v

/-- `unmarshall(item)` (`Recommendations.js` lines 28-41): rebuild the
record, converting each field value by `unmarshallVal`. -/
def unmarshall (item : List (String × JVal)) : List (String × JVal) :=
  item.map (fun p => (p.1, unmarshallVal p.2))

/-- `v && (v.S !== undefined || v.N !== undefined)` (`Recommendations.js`
line 45): a truthy value carrying an `S` or `N` key — only non-null objects
can. -/
def carriesSorN (v : JVal) : Bool :=
  match v with
  | .vobj fields => (lookup? fields "S").isSome || (lookup? fields "N").isSome
  | _ => false

/-- `Object.values(item).some(...)` (`Recommendations.js` lines 44-45). -/
def isDynamo (item : List (String × JVal)) : Bool :=
  item.any (fun p => carriesSorN p.2)

/-- `isDynamo ? unmarshall(item) : item` (`Recommendations.js` line 46). -/
def processItem (item : List (String × JVal)) : List (String × JVal) :=
  if isDynamo item then unmarshall item else item

/-- `data.map(...)` over the departments payload (`Recommendations.js`
lines 43-47). -/
def processDepartments (data : List (List (String × JVal))) :
    List (List (String × JVal)) :=
  data.map processItem

/-- Result of rendering `ENPSPieChart` (`StatCard.js` lines 428-466): the
no-data placeholder, or the chart with the three `toFixed(1)` percentage
values (string rendering elided). -/
inductive ENPSRender where
  | noData
  | chart (promotersPercent passivesPercent detractorsPercent : ℚ)
deriving DecidableEq

/-- Percentage `count / total * 100`, guarded: `none` records a division by
zero, so a fully-`some` render certifies that no zero division happened. -/
def pctOf (count total : ℚ) : Option ℚ :=
  if total = 0 then none else some (count / total * 100)

/-- `ENPSPieChart` (`StatCard.js` lines 428-466): `total = promoters +
passives + detractors`; if `total === 0` render the placeholder, else each
group's percentage is `(count / total) * 100` formatted with `toFixed(1)`. -/
def ENPSPieChart (promoters passives detractors : ℚ) : Option ENPSRender :=
  let total := promoters + passives + detractors
  if total = 0 then some .noData
  else
    match pctOf promoters total, pctOf passives total, pctOf detractors total with
    | some pp, some sp, some dp =>
      some (.chart (round1 pp) (round1 sp) (round1 dp))
    | _, _, _ => none

/-- Modelled from the spec (§3): a survey response record; the backend
source (`utils/risk_engine.py`, `utils/recommendation_agent.py`) is not in
the tree.  Scores are 0-10 rationals; `category` and `comment` may be
absent. -/
structure SurveyResponse where
  department : String
  quarter : String
  year : ℤ
  employee_id : String
  sentiment_score : ℚ
  job_satisfaction : ℚ
  work_life_balance : ℚ
  manager_support : ℚ
  category : Option String
  comment : Option String
deriving DecidableEq

/-- Modelled from the spec (§3): an employee record. -/
structure Employee where
  employee_id : String
  department : String
  role : String
  tenure_years : ℚ
  manager_id : Option String
deriving DecidableEq

/-- Modelled from the spec (§3): a workload record. -/
structure WorkloadRecord where
  employee_id : String
  department : String
  hours_per_week : ℚ
deriving DecidableEq

/-- Modelled from the spec (§3): the Risk Classifier's output. -/
structure RiskSummary where
  department : String
  quarter : String
  year : ℤ
  total_responses : ℕ
  bad_sentiment_count : ℕ
  bad_score_count : ℕ
  burnout_risk_pct : ℚ
  turnover_risk_pct : ℚ
deriving DecidableEq

/-- Modelled from the spec (§4.1): "bad sentiment" is
`sentiment_score ≤ 5.0` (inclusive threshold). -/
def isBadSentiment (r : SurveyResponse) : Bool :=
  decide (r.sentiment_score ≤ 5)

/-- Modelled from the spec (§4.1): "bad score" is `job_satisfaction ≤ 5.0`
or `work_life_balance ≤ 5.0` or `manager_support ≤ 5.0`. -/
def isBadScore (r : SurveyResponse) : Bool :=
  decide (r.job_satisfaction ≤ 5) || decide (r.work_life_balance ≤ 5) ||
    decide (r.manager_support ≤ 5)

/-- Modelled from the spec (§4.1): a response counts toward burnout risk
when `work_life_balance ≤ 5.0`. -/
def isBurnoutRisk (r : SurveyResponse) : Bool :=
  decide (r.work_life_balance ≤ 5)

/-- Modelled from the spec (§4.1): a response counts toward turnover risk
when both `job_satisfaction ≤ 5.0` and `manager_support ≤ 5.0` hold. -/
def isTurnoverRisk (r : SurveyResponse) : Bool :=
  decide (r.job_satisfaction ≤ 5) && decide (r.manager_support ≤ 5)

/-- Modelled from the spec (§3, §4.1): `round(numerator/total*100, 1)`, or
`0.0` when the total is `0` (never divide by zero). -/
def riskPct (numerator total : ℕ) : ℚ :=
  if total = 0 then 0 else round1 ((numerator : ℚ) / (total : ℚ) * 100)

/-- Modelled from the spec (§4.1): `classify(responses) -> RiskSummary`,
the Risk Classifier of `recommendation_agent.py` (absent from the tree).
Pure function; empty input yields zero counts and `0.0` percentages. -/
def classify (department quarter : String) (year : ℤ)
    (responses : List SurveyResponse) : RiskSummary where
  department := department
  quarter := quarter
  year := year
  total_responses := responses.length
  bad_sentiment_count := responses.countP isBadSentiment
  bad_score_count := responses.countP isBadScore
  burnout_risk_pct := riskPct (responses.countP isBurnoutRisk) responses.length
  turnover_risk_pct := riskPct (responses.countP isTurnoverRisk) responses.length

/-- Modelled from the spec (§4.2): category values of the responses flagged
bad by the bad-score rule, with blank or absent categories dropped. -/
def badCategories (responses : List SurveyResponse) : List String :=
  ((responses.filter isBadScore).filterMap (fun r => r.category)).filter
    (fun c => !(c == ""))

/-- Occurrences of `c` in `cats`. -/
def countCat (cats : List String) (c : String) : ℕ :=
  cats.countP (fun x => x == c)

/-- Distinct labels in order of first appearance. -/
def firstSeen (cats : List String) : List String :=
  cats.foldl (fun acc c => if c ∈ acc then acc else acc ++ [c]) []

/-- Insert a labelled count into a list sorted by descending count, after
every entry with a count at least as large (so earlier-seen labels stay
ahead of later ties). -/
def insertByCountDesc (x : String × ℕ) : List (String × ℕ) → List (String × ℕ)
  | [] => [x]
  | y :: ys => if y.2 < x.2 then x :: y :: ys else y :: insertByCountDesc x ys

/-- Stable insertion sort by descending count. -/
def sortByCountDesc (ps : List (String × ℕ)) : List (String × ℕ) :=
  ps.foldl (fun acc x => insertByCountDesc x acc) []

/-- Modelled from the spec (§4.2): frequency-count the labels, sort
descending by count with ties broken by first-seen order, take the top
`n`. -/
def commonCategories (cats : List String) (n : ℕ) : List String :=
  ((sortByCountDesc ((firstSeen cats).map (fun c => (c, countCat cats c)))).map
    Prod.fst).take n

/-- Modelled from the spec (§4.2): the first `m` non-empty comments of the
bad-score subset, in original response order. -/
def sampleComments (responses : List SurveyResponse) (m : ℕ) : List String :=
  (((responses.filter isBadScore).filterMap (fun r => r.comment)).filter
    (fun c => !(c == ""))).take m

/-- Arithmetic mean of a list of rationals; `none` on an empty divisor set,
distinguishing "no data" from "measured zero". -/
def mean? (xs : List ℚ) : Option ℚ :=
  match xs with
  | [] => none
  | _ => some (xs.sum / (xs.length : ℚ))

/-- Modelled from the spec (§4.2): inner join of workloads to employees by
`employee_id`. -/
def joinedWorkloads (employees : List Employee) (workloads : List WorkloadRecord) :
    List WorkloadRecord :=
  workloads.filter (fun w => employees.any (fun e => e.employee_id == w.employee_id))

/-- Modelled from the spec (§3): the enriched context handed to the Prompt
Builder. -/
structure EnrichedContext where
  department : String
  quarter : String
  year : ℤ
  total_responses : ℕ
  bad_sentiment_count : ℕ
  bad_score_count : ℕ
  burnout_risk_pct : ℚ
  turnover_risk_pct : ℚ
  total_employees : ℕ
  avg_tenure_years : Option ℚ
  avg_workload_hours : Option ℚ
  avg_job_satisfaction : Option ℚ
  avg_work_life_balance : Option ℚ
  common_categories : List String
  sample_comments : List String
deriving DecidableEq

/-- Modelled from the spec (§4.2): `enrich(department, quarter, year,
responses, employees, workloads) -> EnrichedContext`, the Context
Aggregator (`get_enriched_context_for_recommendations` of
`recommendation_agent.py`, absent from the tree).  Calls the Risk
Classifier internally; averages yield `none` on empty divisor sets; `n`
and `m` are the configurable top-N and sample bounds (defaults 3 and 5). -/
def enrich (department quarter : String) (year : ℤ)
    (responses : List SurveyResponse) (employees : List Employee)
    (workloads : List WorkloadRecord) (n : ℕ := 3) (m : ℕ := 5) :
    EnrichedContext :=
  let risk := classify department quarter year responses
  { department := department
    quarter := quarter
    year := year
    total_responses := risk.total_responses
    bad_sentiment_count := risk.bad_sentiment_count
    bad_score_count := risk.bad_score_count
    burnout_risk_pct := risk.burnout_risk_pct
    turnover_risk_pct := risk.turnover_risk_pct
    total_employees := employees.length
    avg_tenure_years := mean? (employees.map (fun e => e.tenure_years))
    avg_workload_hours :=
      mean? ((joinedWorkloads employees workloads).map (fun w => w.hours_per_week))
    avg_job_satisfaction := mean? (responses.map (fun r => r.job_satisfaction))
    avg_work_life_balance := mean? (responses.map (fun r => r.work_life_balance))
    common_categories := commonCategories (badCategories responses) n
    sample_comments := sampleComments responses m }

/-- Render a rational with one decimal place (`"35.5"`), as the fixed
decimal precision required of the Prompt Builder. -/
def fmt1 (x : ℚ) : String :=
  let n := roundHalfUp (x * 10)
  toString (n / 10) ++ "." ++ toString (n % 10).natAbs

/-- Render an optional metric, `"N/A"` when absent. -/
def fmtOpt (x : Option ℚ) : String :=
  match x with
  | none => "N/A"
  | some q => fmt1 q

/-- Modelled from the spec (§4.3): `build(context) -> text`, the Prompt
Builder of `generate_recommendations_with_llama` (absent from the tree).
Pure text assembly in a stable order: department identity, counts, both
risk percentages, the four averaged metrics with `"N/A"` for absent
values, the category and comment lists, and the four-key JSON instruction. -/
def build (context : EnrichedContext) : String :=
  "You are an expert HR consultant analyzing employee survey data.\n" ++
  "Department: " ++ context.department ++ "\n" ++
  "Quarter: " ++ context.quarter ++ " " ++ toString context.year ++ "\n" ++
  "Total Employees: " ++ toString context.total_employees ++ "\n" ++
  "Total Responses: " ++ toString context.total_responses ++ "\n" ++
  "Burnout Risk: " ++ fmt1 context.burnout_risk_pct ++ "%\n" ++
  "Turnover Risk: " ++ fmt1 context.turnover_risk_pct ++ "%\n" ++
  "Avg Tenure (years): " ++ fmtOpt context.avg_tenure_years ++ "\n" ++
  "Avg Workload (hours/week): " ++ fmtOpt context.avg_workload_hours ++ "\n" ++
  "Avg Job Satisfaction: " ++ fmtOpt context.avg_job_satisfaction ++ "\n" ++
  "Avg Work-Life Balance: " ++ fmtOpt context.avg_work_life_balance ++ "\n" ++
  "Common Issues: " ++ String.intercalate ", " context.common_categories ++ "\n" ++
  "Sample Comments:\n" ++
  String.intercalate "\n" (context.sample_comments.map (fun c => "- " ++ c)) ++
  "\n" ++
  "Respond with a JSON object with exactly these four top-level keys: " ++
  "priority_actions, recommended_events, long_term_strategies, metrics_to_track."

/-- Modelled from the spec (§4.4, §6): one raw output of the
generative-model service, after the Generator's JSON extraction step:
either no syntactically valid JSON object was found in the text, or the
first one found, parsed. -/
inductive RawResponse where
  | unparseable (text : String)
  | parsed (j : JVal)

/-- Does the JSON object carry every one of the `required` keys? -/
def hasKeys (required : List String) (j : JVal) : Bool :=
  match j with
  | .vobj fields => required.all (fun k => (lookup? fields k).isSome)
  | _ => false

/-- The value of key `k`, when it is a sequence. -/
def getArr? (j : JVal) (k : String) : Option (List JVal) :=
  match j with
  | .vobj fields =>
    match lookup? fields k with
    | some (.varr xs) => some xs
    | _ => none
  | _ => none

/-- Modelled from the spec (§4.4): validation of the parsed model output.
All four required keys must be present and map to sequences; each element
of `priority_actions` must carry `action`, `rationale`, `timeline`; of
`recommended_events`: `event`, `description`, `expected_impact`; of
`long_term_strategies`: `strategy`, `implementation`. -/
def validRecommendations (j : JVal) : Bool :=
  match getArr? j "priority_actions", getArr? j "recommended_events",
        getArr? j "long_term_strategies", getArr? j "metrics_to_track" with
  | some pas, some evs, some sts, some _ =>
    pas.all (hasKeys ["action", "rationale", "timeline"]) &&
      evs.all (hasKeys ["event", "description", "expected_impact"]) &&
      sts.all (hasKeys ["strategy", "implementation"])
  | _, _, _, _ => false

/-- Extract-then-parse-then-validate on one raw model response: `some`
with the validated four-key object, `none` on JSON-parse failure or any
missing key or wrong element shape. -/
def extractValidate (r : RawResponse) : Option JVal :=
  match r with
  | .unparseable _ => none
  | .parsed j => if validRecommendations j then some j else none

/-- Modelled from the spec (§4.4): the Generator's outcome — the validated
four-key object, or a structured `GenerationFailed` failure carrying the
last raw model response. -/
inductive GenResult where
  | ok (recommendations : JVal)
  | generationFailed (lastRaw : RawResponse)

/-- Modelled from the spec (§4.4): `generate(prompt)`, the Recommendation
Generator of `generate_recommendations_with_llama` (absent from the tree).
`respond prompt i` is the model service's answer to the `i`-th call with
that prompt text.  A valid first response is used directly; an invalid one
triggers exactly one retry with the same prompt; a second invalid response
ends in `GenerationFailed`.  The first component counts the outbound calls
made to the model service. -/
def generate (respond : String → ℕ → RawResponse) (prompt : String) :
    ℕ × GenResult :=
  match extractValidate (respond prompt 0) with
  | some j => (1, .ok j)
  | none =>
    match extractValidate (respond prompt 1) with
    | some j => (2, .ok j)
    | none => (2, .generationFailed (respond prompt 1))

/-- Modelled from the spec (§7): the per-department failure taxonomy
surfaced by the Orchestrator. -/
inductive PipelineFailure where
  | dataUnavailable
  | generationFailed (lastRaw : RawResponse)

/-- Modelled from the spec (§3): the pipeline's final output for one
department. -/
structure RecommendationSet where
  department : String
  context : EnrichedContext
  recommendations : JVal

/-- Modelled from the spec (§4.5): `run_all(requests)`, the Multi-Department
Orchestrator of `generate_multi_department_recommendations` (absent from
the tree).  Runs the per-department pipeline independently for every
requested department, in request order, recording a success or failure
entry under that department's key. -/
def runAll (pipeline : String → Except PipelineFailure RecommendationSet)
    (requests : List String) :
    List (String × Except PipelineFailure RecommendationSet) :=
  requests.map (fun d => (d, pipeline d))

/-- The two survey responses of the spec's Risk Classifier scenario
(§8): sentiment 3 / satisfaction 4 / balance 3 / support 7. -/
def scenarioResponse1 : SurveyResponse :=
  { department := "Engineering", quarter := "Q1", year := 2024,
    employee_id := "E1", sentiment_score := 3, job_satisfaction := 4,
    work_life_balance := 3, manager_support := 7, category := none,
    comment := none }

/-- Second scenario response: sentiment 8 / satisfaction 9 / balance 8 /
support 9. -/
def scenarioResponse2 : SurveyResponse :=
  { department := "Engineering", quarter := "Q1", year := 2024,
    employee_id := "E2", sentiment_score := 8, job_satisfaction := 9,
    work_life_balance := 8, manager_support := 9, category := none,
    comment := none }

/-- A minimal model output carrying all four required keys, each an empty
sequence (vacuously element-valid). -/
def validFourKeyObj : JVal :=
  .vobj [("priority_actions", .varr []), ("recommended_events", .varr []),
         ("long_term_strategies", .varr []), ("metrics_to_track", .varr [])]

/-- A successful pipeline output for department `d`, used in the
orchestrator-isolation scenario. -/
def demoSet (d : String) : RecommendationSet :=
  { department := d, context := enrich d "Q1" 2024 [] [] [],
    recommendations := validFourKeyObj }

/-- The three-department scenario pipeline: department B's data fetch
fails with `DataUnavailable`, every other department succeeds. -/
def demoPipeline (d : String) : Except PipelineFailure RecommendationSet :=
  if d = "B" then .error .dataUnavailable else .ok (demoSet d)

/-- A survey response with a bad score, used to instantiate the
partial-data and classifier theorems. -/
def demoResponse : SurveyResponse :=
  { department := "Engineering", quarter := "Q1", year := 2024,
    employee_id := "E1", sentiment_score := 4, job_satisfaction := 4,
    work_life_balance := 6, manager_support := 6,
    category := some "workload", comment := some "Too much work" }

/-- An `EnrichedContext` whose four averaged metrics are all absent. -/
def allAbsentContext : EnrichedContext :=
  { department := "Engineering", quarter := "Q1", year := 2024,
    total_responses := 0, bad_sentiment_count := 0, bad_score_count := 0,
    burnout_risk_pct := 0, turnover_risk_pct := 0, total_employees := 0,
    avg_tenure_years := none, avg_workload_hours := none,
    avg_job_satisfaction := none, avg_work_life_balance := none,
    common_categories := [], sample_comments := [] }

/-- A departments record whose `S` attribute itself wraps another
`S`-keyed object — valid JSON the endpoint could deliver. -/
def dynamoNestedItem : List (String × JVal) :=
  [("a", .vobj [("S", .vobj [("S", .vstr "x")])])]

/-- A field value is S-safe when, if it is an object with an `S` key, the
wrapped value does not itself carry an `S` or `N` key.  The DynamoDB wire
encoding always wraps a plain string, hence is S-safe. -/
def sSafeVal (v : JVal) : Bool :=
  match v with
  | .vobj fields =>
    match lookup? fields "S" with
    | some s => !(carriesSorN s)
    | none => true
  | _ => true

theorem riskPct_nonneg (n t : ℕ) : 0 ≤ riskPct n t := by
  unfold riskPct
  split
  · exact le_refl 0
  · unfold round1
    apply div_nonneg _ (by norm_num)
    unfold roundHalfUp
    have h : (0 : ℤ) ≤ ⌊(n : ℚ) / (t : ℚ) * 100 * 10 + 1/2⌋ := by
      apply Int.le_floor.mpr
      push_cast
      positivity
    exact_mod_cast h

theorem riskPct_le_100 {n t : ℕ} (h : n ≤ t) : riskPct n t ≤ 100 := by
  unfold riskPct
  split
  · norm_num
  · rename_i ht
    have htpos : (0 : ℚ) < (t : ℚ) := by
      have := Nat.pos_of_ne_zero ht
      exact_mod_cast this
    have hdiv : (n : ℚ) / (t : ℚ) ≤ 1 := by
      rw [div_le_one htpos]
      exact_mod_cast h
    unfold round1
    unfold roundHalfUp
    have hx : (n : ℚ) / (t : ℚ) * 100 * 10 + 1/2 < 1001 := by nlinarith
    have hfloor : ⌊(n : ℚ) / (t : ℚ) * 100 * 10 + 1/2⌋ < 1001 := by
      rw [Int.floor_lt]
      exact_mod_cast hx
    have hfloor' : ⌊(n : ℚ) / (t : ℚ) * 100 * 10 + 1/2⌋ ≤ 1000 := by omega
    have hcast : (⌊(n : ℚ) / (t : ℚ) * 100 * 10 + 1/2⌋ : ℚ) ≤ 1000 := by
      exact_mod_cast hfloor'
    linarith

/-- C1.  Risk Classifier turnover rule: a response counts toward
`turnover_risk_pct` iff both `job_satisfaction ≤ 5.0` and
`manager_support ≤ 5.0` hold; the two-response scenario yields
`total_responses = 2`, `bad_sentiment_count = 1`,
`burnout_risk_pct = 50.0` and `turnover_risk_pct = 0.0`. -/
theorem classify_turnover_rule :
    (∀ (dept q : String) (y : ℤ) (responses : List SurveyResponse),
        (classify dept q y responses).turnover_risk_pct =
          riskPct ((responses.filter (fun r =>
              decide (r.job_satisfaction ≤ 5 ∧ r.manager_support ≤ 5))).length)
            responses.length)
  ∧ (∀ r : SurveyResponse,
        isTurnoverRisk r = true ↔ (r.job_satisfaction ≤ 5 ∧ r.manager_support ≤ 5))
  ∧ classify "Engineering" "Q1" 2024 [scenarioResponse1, scenarioResponse2] =
      { department := "Engineering", quarter := "Q1", year := 2024,
        total_responses := 2, bad_sentiment_count := 1, bad_score_count := 1,
        burnout_risk_pct := 50, turnover_risk_pct := 0 } := by
  refine ⟨?_, ?_, ?_⟩
  · intro dept q y responses
    simp only [classify]
    rw [List.countP_eq_length_filter]
    congr 1
    apply congrArg List.length
    apply List.filter_congr
    intro r _
    simp [isTurnoverRisk, Bool.decide_and]
  · intro r
    simp [isTurnoverRisk]
  · simp only [classify, scenarioResponse1, scenarioResponse2,
      List.countP_cons, List.countP_nil, List.length_cons, List.length_nil,
      isBadSentiment, isBadScore, isBurnoutRisk, isTurnoverRisk]
    norm_num [riskPct, round1, roundHalfUp]

/-- C2.  Both risk percentages equal `round(numerator/total*100, 1)` and
lie in `[0, 100]`; the empty sequence yields `total_responses = 0` and
both percentages `0.0` with no error. -/
theorem classify_pct_invariants :
    (∀ (dept q : String) (y : ℤ) (responses : List SurveyResponse),
        (classify dept q y responses).burnout_risk_pct =
            riskPct (responses.countP isBurnoutRisk) responses.length
          ∧ (classify dept q y responses).turnover_risk_pct =
            riskPct (responses.countP isTurnoverRisk) responses.length
          ∧ 0 ≤ (classify dept q y responses).burnout_risk_pct
          ∧ (classify dept q y responses).burnout_risk_pct ≤ 100
          ∧ 0 ≤ (classify dept q y responses).turnover_risk_pct
          ∧ (classify dept q y responses).turnover_risk_pct ≤ 100)
  ∧ (∀ (dept q : String) (y : ℤ), classify dept q y [] =
      { department := dept, quarter := q, year := y, total_responses := 0,
        bad_sentiment_count := 0, bad_score_count := 0,
        burnout_risk_pct := 0, turnover_risk_pct := 0 }) := by
  constructor
  · intro dept q y responses
    refine ⟨rfl, rfl, riskPct_nonneg _ _, riskPct_le_100 ?_,
      riskPct_nonneg _ _, riskPct_le_100 ?_⟩
    · exact List.countP_le_length _
    · exact List.countP_le_length _
  · intro dept q y
    rfl

theorem head?_insertByCountDesc (x : String × ℕ) (l : List (String × ℕ)) :
    (insertByCountDesc x l).head? = some x ∨ (insertByCountDesc x l).head? = l.head? := by
  cases l with
  | nil => left; rfl
  | cons z zs =>
    simp only [insertByCountDesc]
    split
    · left; rfl
    · right; rfl

theorem chain'_insertByCountDesc {x : String × ℕ} {l : List (String × ℕ)}
    (h : l.Chain' (fun a b => b.2 ≤ a.2)) :
    (insertByCountDesc x l).Chain' (fun a b => b.2 ≤ a.2) := by
  induction l with
  | nil => simp [insertByCountDesc]
  | cons z zs ih =>
    simp only [insertByCountDesc]
    split
    · rename_i hlt
      exact List.chain'_cons.mpr ⟨le_of_lt hlt, h⟩
    · rename_i hnlt
      refine List.chain'_cons'.mpr ⟨?_, ih h.tail⟩
      intro hd hhd
      rcases head?_insertByCountDesc x zs with hc | hc
      · rw [hc] at hhd
        cases hhd
        exact Nat.le_of_not_lt hnlt
      · rw [hc] at hhd
        exact (List.chain'_cons'.mp h).1 hd hhd

theorem mem_insertByCountDesc {x y : String × ℕ} {l : List (String × ℕ)} :
    y ∈ insertByCountDesc x l ↔ y = x ∨ y ∈ l := by
  induction l with
  | nil => simp [insertByCountDesc]
  | cons z zs ih =>
    simp only [insertByCountDesc]
    split
    · simp [List.mem_cons]
    · simp only [List.mem_cons, ih]
      tauto

theorem chain'_sortByCountDesc (ps : List (String × ℕ)) :
    (sortByCountDesc ps).Chain' (fun a b => b.2 ≤ a.2) := by
  unfold sortByCountDesc
  suffices h : ∀ (acc : List (String × ℕ)),
      acc.Chain' (fun a b => b.2 ≤ a.2) →
      (ps.foldl (fun acc x => insertByCountDesc x acc) acc).Chain'
        (fun a b => b.2 ≤ a.2) by
    exact h [] (by simp)
  induction ps with
  | nil => intro acc hacc; exact hacc
  | cons p ps ih =>
    intro acc hacc
    exact ih _ (chain'_insertByCountDesc hacc)

theorem mem_sortByCountDesc {y : String × ℕ} {ps : List (String × ℕ)} :
    y ∈ sortByCountDesc ps ↔ y ∈ ps := by
  unfold sortByCountDesc
  suffices h : ∀ (acc : List (String × ℕ)),
      y ∈ ps.foldl (fun acc x => insertByCountDesc x acc) acc ↔ y ∈ acc ∨ y ∈ ps by
    simpa using h []
  induction ps with
  | nil => intro acc; simp
  | cons p ps ih =>
    intro acc
    rw [List.foldl_cons, ih]
    simp only [mem_insertByCountDesc, List.mem_cons]
    tauto

theorem chain'_imp_of_mem {α : Type} {R S : α → α → Prop} {l : List α}
    (h : l.Chain' R) (him : ∀ a ∈ l, ∀ b ∈ l, R a b → S a b) :
    l.Chain' S := by
  induction l with
  | nil => simp
  | cons a l ih =>
    rcases List.chain'_cons'.mp h with ⟨hhead, htail⟩
    refine List.chain'_cons'.mpr ⟨?_, ?_⟩
    · intro b hb
      exact him a (List.mem_cons_self a l) b
        (List.mem_cons_of_mem a (List.mem_of_mem_head? hb)) (hhead b hb)
    · exact ih htail (fun a ha b hb hr =>
        him a (List.mem_cons_of_mem _ ha) b (List.mem_cons_of_mem _ hb) hr)

theorem commonCategories_sorted (cats : List String) (n : ℕ) :
    (commonCategories cats n).Chain'
      (fun a b => countCat cats b ≤ countCat cats a) := by
  unfold commonCategories
  apply List.Chain'.take
  rw [List.chain'_map]
  have hmem : ∀ p ∈ sortByCountDesc ((firstSeen cats).map
      (fun c => (c, countCat cats c))), p.2 = countCat cats p.1 := by
    intro p hp
    rw [mem_sortByCountDesc] at hp
    rcases List.mem_map.mp hp with ⟨c, _, rfl⟩
    rfl
  apply chain'_imp_of_mem (chain'_sortByCountDesc _)
  intro a ha b hb hr
  rw [← hmem a ha, ← hmem b hb]
  exact hr

/-- C3.  Context Aggregator `common_categories`: the category field is
frequency-counted over exactly the responses flagged bad by the bad-score
rule, blank or absent categories dropped, labels sorted by descending
count with first-seen tie-break, top N taken (default N = 3); the
six-category scenario yields `["career", "workload", "management"]`. -/
theorem enrich_common_categories :
    (∀ (dept q : String) (y : ℤ) (rs : List SurveyResponse)
        (es : List Employee) (ws : List WorkloadRecord),
        (enrich dept q y rs es ws).common_categories =
          commonCategories (badCategories rs) 3)
  ∧ (∀ (cats : List String) (n : ℕ), (commonCategories cats n).length ≤ n)
  ∧ (∀ (cats : List String) (n : ℕ),
      (commonCategories cats n).Chain'
        (fun a b => countCat cats b ≤ countCat cats a))
  ∧ commonCategories
      ["workload", "workload", "management", "career", "career", "career"] 3 =
      ["career", "workload", "management"] := by
  refine ⟨fun _ _ _ _ _ _ => rfl, ?_, commonCategories_sorted, ?_⟩
  · intro cats n
    unfold commonCategories
    exact List.length_take_le _ _
  · decide

/-- C4.  Recommendation Generator retry bound: never a third call to the
model service within one invocation — a valid first response means exactly
one call; an invalid first response triggers exactly one retry with the
same prompt; two consecutive invalid responses end in `GenerationFailed`
with no further call. -/
theorem generate_retry_bound (respond : String → ℕ → RawResponse)
    (prompt : String) :
    (generate respond prompt).1 ≤ 2
  ∧ (∀ j, extractValidate (respond prompt 0) = some j →
      generate respond prompt = (1, .ok j))
  ∧ (extractValidate (respond prompt 0) = none →
      ∀ j, extractValidate (respond prompt 1) = some j →
        generate respond prompt = (2, .ok j))
  ∧ (extractValidate (respond prompt 0) = none →
      extractValidate (respond prompt 1) = none →
        generate respond prompt = (2, .generationFailed (respond prompt 1))) := by
  unfold generate
  rcases h0 : extractValidate (respond prompt 0) with _ | j0
  · rcases h1 : extractValidate (respond prompt 1) with _ | j1
    · exact ⟨by simp, by simp, fun _ j hj => by simp_all, fun _ _ => by simp⟩
    · exact ⟨by simp, by simp, fun _ j hj => by simp_all, fun _ h => by simp_all⟩
  · exact ⟨by simp, fun j hj => by simp_all, fun h => by simp_all,
      fun h _ => by simp_all⟩

/-- Witness for C4: a mock that always answers with a valid four-key
object makes exactly one call; a mock that never parses makes exactly two
calls and ends in `GenerationFailed` carrying the second raw response. -/
theorem generate_retry_bound_witness :
    generate (fun _ _ => RawResponse.parsed validFourKeyObj) "p" =
        (1, .ok validFourKeyObj)
  ∧ generate (fun _ _ => RawResponse.unparseable "no json") "p" =
      (2, .generationFailed (.unparseable "no json")) :=
  ⟨(generate_retry_bound (fun _ _ => RawResponse.parsed validFourKeyObj)
      "p").2.1 validFourKeyObj rfl,
   (generate_retry_bound (fun _ _ => RawResponse.unparseable "no json")
      "p").2.2.2 rfl rfl⟩

theorem validRecommendations_sound {j : JVal}
    (h : validRecommendations j = true) :
    ∃ pas evs sts mts,
      getArr? j "priority_actions" = some pas ∧
      getArr? j "recommended_events" = some evs ∧
      getArr? j "long_term_strategies" = some sts ∧
      getArr? j "metrics_to_track" = some mts ∧
      (∀ e ∈ pas, hasKeys ["action", "rationale", "timeline"] e = true) ∧
      (∀ e ∈ evs, hasKeys ["event", "description", "expected_impact"] e = true) ∧
      (∀ e ∈ sts, hasKeys ["strategy", "implementation"] e = true) := by
  unfold validRecommendations at h
  split at h
  · rename_i pas evs sts mts hpa hev hst hmt
    simp only [Bool.and_eq_true, List.all_eq_true] at h
    exact ⟨pas, evs, sts, mts, hpa, hev, hst, hmt, h.1.1, h.1.2, h.2⟩
  · cases h

theorem extractValidate_valid {r : RawResponse} {j : JVal}
    (h : extractValidate r = some j) : validRecommendations j = true := by
  unfold extractValidate at h
  cases r with
  | unparseable t => cases h
  | parsed j' =>
    by_cases hv : validRecommendations j' = true
    · simp [hv] at h
      rw [← h]
      exact hv
    · simp [hv] at h

/-- C5.  All-or-nothing output: every invocation of the Generator either
returns an object carrying all four required keys, each a sequence whose
elements carry their required fields, or reports `GenerationFailed`
carrying the last raw model response; it never returns a partially-valid
structure. -/
theorem generate_all_or_nothing (respond : String → ℕ → RawResponse)
    (prompt : String) :
    (∃ j pas evs sts mts,
        (generate respond prompt).2 = GenResult.ok j ∧
        getArr? j "priority_actions" = some pas ∧
        getArr? j "recommended_events" = some evs ∧
        getArr? j "long_term_strategies" = some sts ∧
        getArr? j "metrics_to_track" = some mts ∧
        (∀ e ∈ pas, hasKeys ["action", "rationale", "timeline"] e = true) ∧
        (∀ e ∈ evs, hasKeys ["event", "description", "expected_impact"] e = true) ∧
        (∀ e ∈ sts, hasKeys ["strategy", "implementation"] e = true))
  ∨ (generate respond prompt).2 =
      GenResult.generationFailed (respond prompt 1) := by
  unfold generate
  rcases h0 : extractValidate (respond prompt 0) with _ | j0
  · rcases h1 : extractValidate (respond prompt 1) with _ | j1
    · right; rfl
    · left
      rcases validRecommendations_sound (extractValidate_valid h1) with
        ⟨pas, evs, sts, mts, hpa, hev, hst, hmt, hp, he, hs⟩
      exact ⟨j1, pas, evs, sts, mts, rfl, hpa, hev, hst, hmt, hp, he, hs⟩
  · left
    rcases validRecommendations_sound (extractValidate_valid h0) with
      ⟨pas, evs, sts, mts, hpa, hev, hst, hmt, hp, he, hs⟩
    exact ⟨j0, pas, evs, sts, mts, rfl, hpa, hev, hst, hmt, hp, he, hs⟩

theorem lookup_runAll {pipeline : String → Except PipelineFailure RecommendationSet}
    {requests : List String} {d : String} (h : d ∈ requests) :
    (runAll pipeline requests).lookup d = some (pipeline d) := by
  induction requests with
  | nil => cases h
  | cons r rs ih =>
    rcases List.mem_cons.mp h with rfl | hmem
    · simp [runAll, List.lookup]
    · by_cases hdr : d = r
      · subst hdr
        simp [runAll, List.lookup]
      · have hbeq : (d == r) = false := by simpa using hdr
        simp only [runAll, List.map_cons, List.lookup, hbeq]
        exact ih hmem

/-- C6.  Orchestrator isolation: `run_all` returns exactly one entry per
requested department, each entry being exactly what that department's
isolated pipeline run produces — so one department's failure cannot
change, or remove, any other department's entry; in the three-department
scenario with B's data fetch failing, the mapping has three entries, A and
C successful and unchanged, B a `DataUnavailable` failure. -/
theorem runAll_isolation (pipeline : String → Except PipelineFailure RecommendationSet)
    (requests : List String) :
    (runAll pipeline requests).length = requests.length
  ∧ (∀ d ∈ requests, (runAll pipeline requests).lookup d = some (pipeline d))
  ∧ runAll demoPipeline ["A", "B", "C"] =
      [("A", .ok (demoSet "A")), ("B", .error .dataUnavailable),
       ("C", .ok (demoSet "C"))] := by
  refine ⟨List.length_map _ _, fun d hd => lookup_runAll hd, ?_⟩
  rfl

/-- Witness for C6: the three-department scenario's mapping resolves
department A to exactly its isolated pipeline result. -/
theorem runAll_isolation_witness :
    (runAll demoPipeline ["A", "B", "C"]).lookup "A" =
      some (demoPipeline "A") :=
  (runAll_isolation demoPipeline ["A", "B", "C"]).2.1 "A" (by simp)

/-- C7.  Context Aggregator totality on partial data: with non-empty
responses but no employees and no workloads, `enrich` succeeds and the
employee/workload-derived fields are absent; each average is the
arithmetic mean over its non-missing values, and an empty divisor set
yields `none` rather than an error or zero. -/
theorem enrich_partial_data (dept q : String) (y : ℤ)
    (responses : List SurveyResponse) (h : responses ≠ []) :
    (enrich dept q y responses [] []).total_employees = 0
  ∧ (enrich dept q y responses [] []).avg_tenure_years = none
  ∧ (enrich dept q y responses [] []).avg_workload_hours = none
  ∧ (∀ (es : List Employee) (ws : List WorkloadRecord),
      (enrich dept q y responses es ws).avg_job_satisfaction =
        mean? (responses.map (fun r => r.job_satisfaction))
      ∧ (enrich dept q y responses es ws).avg_work_life_balance =
        mean? (responses.map (fun r => r.work_life_balance))
      ∧ (enrich dept q y responses es ws).avg_tenure_years =
        mean? (es.map (fun e => e.tenure_years))
      ∧ (enrich dept q y responses es ws).avg_workload_hours =
        mean? ((joinedWorkloads es ws).map (fun w => w.hours_per_week)))
  ∧ mean? [] = none
  ∧ (∀ (x : ℚ) (xs : List ℚ),
      mean? (x :: xs) = some ((x :: xs).sum / ((x :: xs).length : ℚ)))
  ∧ (∃ v, (enrich dept q y responses [] []).avg_job_satisfaction = some v ∧
      v = (responses.map (fun r => r.job_satisfaction)).sum /
          ((responses.map (fun r => r.job_satisfaction)).length : ℚ)) := by
  refine ⟨rfl, rfl, rfl, fun es ws => ⟨rfl, rfl, rfl, rfl⟩, rfl,
    fun x xs => rfl, ?_⟩
  cases responses with
  | nil => cases h rfl
  | cons r rs => exact ⟨_, rfl, rfl⟩

/-- Witness for C7: one bad-score response with no employee or workload
data — the aggregator succeeds with absent employee-derived fields. -/
theorem enrich_partial_data_witness :
    (enrich "Engineering" "Q1" 2024 [demoResponse] [] []).total_employees = 0
  ∧ (enrich "Engineering" "Q1" 2024 [demoResponse] [] []).avg_tenure_years = none
  ∧ (enrich "Engineering" "Q1" 2024 [demoResponse] [] []).avg_workload_hours = none :=
  ⟨(enrich_partial_data "Engineering" "Q1" 2024 [demoResponse] (by simp)).1,
   (enrich_partial_data "Engineering" "Q1" 2024 [demoResponse] (by simp)).2.1,
   (enrich_partial_data "Engineering" "Q1" 2024 [demoResponse] (by simp)).2.2.1⟩

/-- C8.  Prompt Builder determinism: two calls to `build` on the same
`EnrichedContext` value produce byte-identical text — the builder is a
pure function of its argument, with no randomness and no locale-dependent
formatting. -/
theorem build_deterministic (c c' : EnrichedContext) (h : c = c') :
    build c = build c' := by
  rw [h]

/-- Witness for C8: byte-identical output on the all-absent-metrics
context. -/
theorem build_deterministic_witness :
    build allAbsentContext = build allAbsentContext :=
  build_deterministic allAbsentContext allAbsentContext rfl

theorem carriesSorN_jsToNumber (v : JVal) :
    carriesSorN (jsToNumber v) = false := by
  cases v with
  | vstr s =>
    cases hp : parseJsNumber? s <;> simp [jsToNumber, hp, carriesSorN]
  | vnum q => rfl
  | vnan => rfl
  | vbool b => rfl
  | vnull => rfl
  | varr elems => rfl
  | vobj fields => rfl

theorem carriesSorN_unmarshallVal {v : JVal} (h : sSafeVal v = true) :
    carriesSorN (unmarshallVal v) = false := by
  cases v with
  | vobj fields =>
    simp only [sSafeVal] at h
    simp only [unmarshallVal]
    cases hs : lookup? fields "S" with
    | some s =>
      simp only [hs] at h
      simp only [hs]
      simpa using h
    | none =>
      simp only [hs]
      cases hn : lookup? fields "N" with
      | some nv =>
        simp only [hn]
        exact carriesSorN_jsToNumber nv
      | none => simp [carriesSorN, hs, hn]
  | vstr s => rfl
  | vnum q => rfl
  | vnan => rfl
  | vbool b => rfl
  | vnull => rfl
  | varr elems => rfl

/-- C9 counterexample: on the record `{a: {S: {S: "x"}}}` — valid JSON the
departments endpoint could return — applying the processing twice does not
give the same result as applying it once: the first pass unwraps the outer
`S` to `{S: "x"}`, which still carries an `S` key, so the second pass
unwraps again to `"x"`. -/
theorem processDepartments_not_idempotent :
    processDepartments (processDepartments [dynamoNestedItem]) ≠
      processDepartments [dynamoNestedItem] := by
  have h1 : processDepartments [dynamoNestedItem] =
      [[("a", JVal.vobj [("S", JVal.vstr "x")])]] := rfl
  have h2 : processDepartments [[("a", JVal.vobj [("S", JVal.vstr "x")])]] =
      [[("a", JVal.vstr "x")]] := rfl
  rw [h1, h2]
  simp

/-- C9 (amended).  The departments processing maps each field whose value
is an object carrying key `S` to the value under `S`, each field whose
value is an object carrying key `N` but no `S` to the numeric conversion
of the `N` value, and leaves every other field value unchanged; the
conversion is applied to a record only when at least one of its field
values carries an `S` or `N` key, otherwise the record passes through
unmodified; and applying the processing twice gives the same result as
applying it once provided no `S`-wrapped value itself carries an `S` or
`N` key (as in the DynamoDB wire encoding, where `S` always wraps a
string). -/
theorem processItem_spec (item : List (String × JVal)) :
    (processItem item = if isDynamo item then unmarshall item else item)
  ∧ (∀ (fields : List (String × JVal)) (s : JVal),
      lookup? fields "S" = some s → unmarshallVal (.vobj fields) = s)
  ∧ (∀ (fields : List (String × JVal)) (nv : JVal),
      lookup? fields "S" = none → lookup? fields "N" = some nv →
        unmarshallVal (.vobj fields) = jsToNumber nv)
  ∧ (∀ v : JVal, carriesSorN v = false → unmarshallVal v = v)
  ∧ (isDynamo item = false → processItem item = item)
  ∧ ((∀ p ∈ item, sSafeVal p.2 = true) →
      processItem (processItem item) = processItem item) := by
  refine ⟨rfl, ?_, ?_, ?_, ?_, ?_⟩
  · intro fields s hs
    simp [unmarshallVal, hs]
  · intro fields nv hs hn
    simp [unmarshallVal, hs, hn]
  · intro v hv
    cases v with
    | vobj fields =>
      cases hs : lookup? fields "S" with
      | some s =>
        exfalso
        simp [carriesSorN, hs] at hv
      | none =>
        cases hn : lookup? fields "N" with
        | some nv =>
          exfalso
          simp [carriesSorN, hs, hn] at hv
        | none => simp [unmarshallVal, hs, hn]
    | vstr s => rfl
    | vnum q => rfl
    | vnan => rfl
    | vbool b => rfl
    | vnull => rfl
    | varr elems => rfl
  · intro hd
    simp [processItem, hd]
  · intro hsafe
    by_cases hd : isDynamo item = true
    · have hout : isDynamo (unmarshall item) = false := by
        unfold isDynamo unmarshall
        rw [List.any_eq_false]
        intro p hp
        rcases List.mem_map.mp hp with ⟨p0, hp0, rfl⟩
        simp [carriesSorN_unmarshallVal (hsafe p0 hp0)]
      simp [processItem, hd, hout]
    · have hd' : isDynamo item = false := by
        simpa using hd
      simp [processItem, hd']

/-- Witness for C9 (amended): a DynamoDB-shaped record — `S` wraps a
string, `N` wraps a numeric string — is unwrapped field by field, and a
second pass leaves the processed record unchanged. -/
theorem processItem_spec_witness :
    unmarshallVal (.vobj [("S", .vstr "x")]) = .vstr "x"
  ∧ unmarshallVal (.vobj [("N", .vstr "42")]) = jsToNumber (.vstr "42")
  ∧ processItem (processItem
      [("a", JVal.vobj [("S", JVal.vstr "x")]),
       ("b", JVal.vobj [("N", JVal.vstr "42")]), ("c", JVal.vstr "y")]) =
    processItem
      [("a", JVal.vobj [("S", JVal.vstr "x")]),
       ("b", JVal.vobj [("N", JVal.vstr "42")]), ("c", JVal.vstr "y")] :=
  ⟨(processItem_spec []).2.1 [("S", .vstr "x")] (.vstr "x") rfl,
   (processItem_spec []).2.2.1 [("N", .vstr "42")] (.vstr "42") rfl rfl,
   (processItem_spec
      [("a", JVal.vobj [("S", JVal.vstr "x")]),
       ("b", JVal.vobj [("N", JVal.vstr "42")]),
       ("c", JVal.vstr "y")]).2.2.2.2.2 (by
        intro p hp
        fin_cases hp <;> rfl)⟩

/-- C10.  eNPS pie-chart division guard: when `promoters + passives +
detractors` is zero the no-data placeholder is rendered and no percentage
division is performed (the render is always `some`, never the
division-by-zero `none`); with a non-zero total each displayed percentage
is that group's count over the total times 100, rounded to one decimal
place. -/
theorem enpsPieChart_division_guard (promoters passives detractors : ℚ) :
    (ENPSPieChart promoters passives detractors).isSome = true
  ∧ (promoters + passives + detractors = 0 →
      ENPSPieChart promoters passives detractors = some .noData)
  ∧ (promoters + passives + detractors ≠ 0 →
      ENPSPieChart promoters passives detractors =
        some (.chart
          (round1 (promoters / (promoters + passives + detractors) * 100))
          (round1 (passives / (promoters + passives + detractors) * 100))
          (round1 (detractors / (promoters + passives + detractors) * 100)))) := by
  by_cases h : promoters + passives + detractors = 0
  · refine ⟨?_, fun _ => ?_, fun hne => absurd h hne⟩ <;>
      simp [ENPSPieChart, h]
  · refine ⟨?_, fun hz => absurd hz h, fun _ => ?_⟩ <;>
      simp [ENPSPieChart, pctOf, h]

/-- Witness for C10: zero counts render the placeholder; counts 6/5/4
render 40.0%, 33.3% and 26.7%. -/
theorem enpsPieChart_division_guard_witness :
    ENPSPieChart 0 0 0 = some .noData
  ∧ ENPSPieChart 6 5 4 =
      some (.chart (round1 (6/15*100)) (round1 (5/15*100)) (round1 (4/15*100))) := by
  constructor
  · exact (enpsPieChart_division_guard 0 0 0).2.1 (by norm_num)
  · have h := (enpsPieChart_division_guard 6 5 4).2.2 (by norm_num)
    rw [h]
    norm_num
